import Mathlib

/-!
Shallow embedding of `libs/data_utils.py` from the
`metadata.tvshows.thesportsdb.python` repository, together with theorems
settling the specification claims about it.

Modelling conventions:
* Python strings are Lean `String`s; Python slicing, lowercasing and
  `str.replace` are modelled by executable helpers (`pyTake`, `pyDrop`,
  `pyLower`, `pyReplace`) that operate on the underlying character lists,
  matching Python's code-point semantics.
* API records (show/episode/season dictionaries) are insertion-ordered
  association lists from string keys to string values, as delivered by the
  TheSportsDB JSON API.  `dict.get` is `dgetOpt` / `dget`.
* The host's mutable `ListItem` / video-info-tag object is an explicit
  state record (`VTag`, `ListItem`); each Python setter call is a field
  update recording the argument of the last call (list-valued collectors
  such as `addAvailableArtwork`, `setUniqueID` and `addSeason` append).
* Fallible Python code (`int(...)`, `dict[...]`, iterating `None`,
  `re.error`) is modelled with `Except PyErr`.
* Network and cache collaborators are out of scope per the spec; the
  season fetch is passed in as an explicit parameter and the emitted side
  effects are collected in an `Effect` list.
-/

set_option autoImplicit false

namespace DataUtils

/-- Python exception classes that the embedded code can raise. -/
inductive PyErr where
  | valueError
  | typeError
  | keyError
  | reError
  | indexError
deriving DecidableEq, Repr

/-! ### Models of Python string primitives -/

/-- Python slicing `s[:n]` (by code points). -/
def pyTake (s : String) (n : Nat) : String :=
  ⟨s.data.take n⟩

/-- Python slicing `s[n:]` (by code points). -/
def pyDrop (s : String) (n : Nat) : String :=
  ⟨s.data.drop n⟩

/-- Python `s.startswith(p)`. -/
def pyStartsWith (s p : String) : Bool :=
  p.data.isPrefixOf s.data

/-- ASCII lowercasing of one character.  Python `str.lower` additionally
maps non-ASCII uppercase letters, but no non-ASCII case mapping can
produce any character of the prefixes and digit classes tested by this
module, so the ASCII restriction is behaviour-preserving here. -/
def charLower (c : Char) : Char :=
  if 'A' ≤ c ∧ c ≤ 'Z' then Char.ofNat (c.toNat + 32) else c

/-- Python `s.lower()` (ASCII case mapping, see `charLower`). -/
def pyLower (s : String) : String :=
  ⟨s.data.map charLower⟩

/-- One pass of Python `str.replace`: replaces every non-overlapping
occurrence of `old` (a nonempty pattern) left to right.  The `fuel`
argument makes the recursion structural; each step consumes at least one
character, so `fuel = s.length` always suffices. -/
def replFuel (old new : List Char) : Nat → List Char → List Char
  | _, [] => []
  | 0, s => s
  | fuel + 1, c :: rest =>
    if old.isPrefixOf (c :: rest) then
      new ++ replFuel old new fuel ((c :: rest).drop old.length)
    else
      c :: replFuel old new fuel rest

/-- Python `s.replace(old, new)`.  (Python's behaviour for an empty `old`
pattern — interspersing `new` — never arises in this module, where every
pattern is a nonempty literal.) -/
def pyReplace (s old new : String) : String :=
  match old.data with
  | [] => s
  | _ :: _ => ⟨replFuel old.data new.data s.data.length s.data⟩

/-! ### Models of the Python numeric-string primitives -/

/-- Characters Python's `int(...)` strips from both ends of its argument. -/
def pyWhitespaceChar (c : Char) : Bool :=
  c == ' ' || c == '\t' || c == '\n' || c == '\r' || c.toNat == 11 || c.toNat == 12

/-- The decimal value of a Unicode decimal digit (category Nd), on a
representative subset of the Unicode table: ASCII, Arabic-Indic, extended
Arabic-Indic, Devanagari, Bengali and fullwidth digits.  (The full Nd
table is elided; the claims only exercise these ranges.) -/
def digitVal (c : Char) : Option Nat :=
  if 0x30 ≤ c.toNat ∧ c.toNat ≤ 0x39 then some (c.toNat - 0x30)
  else if 0x660 ≤ c.toNat ∧ c.toNat ≤ 0x669 then some (c.toNat - 0x660)
  else if 0x6F0 ≤ c.toNat ∧ c.toNat ≤ 0x6F9 then some (c.toNat - 0x6F0)
  else if 0x966 ≤ c.toNat ∧ c.toNat ≤ 0x96F then some (c.toNat - 0x966)
  else if 0x9E6 ≤ c.toNat ∧ c.toNat ≤ 0x9EF then some (c.toNat - 0x9E6)
  else if 0xFF10 ≤ c.toNat ∧ c.toNat ≤ 0xFF19 then some (c.toNat - 0xFF10)
  else none

/-- Digit tail of Python's integer-literal grammar: digits with single
underscores allowed between digits.  `acc` is the value read so far. -/
def digitsVal : List Char → Nat → Option Nat
  | [], acc => some acc
  | '_' :: rest, acc =>
    match rest with
    | [] => none
    | c :: rest2 =>
      match digitVal c with
      | some d => digitsVal rest2 (acc * 10 + d)
      | none => none
  | c :: rest, acc =>
    match digitVal c with
    | some d => digitsVal rest (acc * 10 + d)
    | none => none

/-- A nonempty digit sequence (no leading underscore). -/
def pyIntDigits : List Char → Option Nat
  | [] => none
  | c :: rest =>
    match digitVal c with
    | some d => digitsVal rest d
    | none => none

/-- Model of Python `int(s)` for a string argument: strips whitespace,
reads an optional sign and a nonempty digit sequence; `none` models the
`ValueError` raised on any other input. -/
def pyInt (s : String) : Option Int :=
  let l := ((s.data.dropWhile pyWhitespaceChar).reverse.dropWhile pyWhitespaceChar).reverse
  match l with
  | '+' :: rest => (pyIntDigits rest).map (fun n => (n : Int))
  | '-' :: rest => (pyIntDigits rest).map (fun n => -(n : Int))
  | rest => (pyIntDigits rest).map (fun n => (n : Int))

/-- A character accepted by Python `str.isdigit`: any decimal digit
(`digitVal`) plus the characters with Unicode property `Numeric_Type=Digit`
that are not in category Nd — superscript and subscript digits. -/
def pyDigitChar (c : Char) : Bool :=
  (digitVal c).isSome
  || c.toNat == 0xB9 || c.toNat == 0xB2 || c.toNat == 0xB3
  || c.toNat == 0x2070
  || decide (0x2074 ≤ c.toNat ∧ c.toNat ≤ 0x2079)
  || decide (0x2080 ≤ c.toNat ∧ c.toNat ≤ 0x2089)

/-- Python `s.isdigit()`: nonempty and all characters digit-like. -/
def pyIsdigit (s : String) : Bool :=
  !s.data.isEmpty && s.data.all pyDigitChar

/-! ### The plot sanitizer (`_clean_plot`) -/

/-- `CLEAN_PLOT_REPLACEMENTS` from the source, in order. -/
def CLEAN_PLOT_REPLACEMENTS : List (String × String) :=
  [("<b>", "[B]"), ("</b>", "[/B]"), ("<i>", "[I]"), ("</i>", "[/I]"),
   ("</p><p>", "[CR]")]

/-- `TAG_RE.sub('', ·)` for `TAG_RE = re.compile(r'<[^>]+>')`, as a
left-to-right scanner.  The state `some buf` means a `<` has been read and
`buf` holds the (reversed-free) characters read since; the character class
`[^>]+` admits every character except `>`, including further `<`s, and
requires at least one character, so `<>` is not a match and an unclosed
`<...` at the end of the input is emitted verbatim. -/
def tagGo : Option (List Char) → List Char → List Char
  | none, [] => []
  | none, c :: rest =>
    if c == '<' then tagGo (some []) rest else c :: tagGo none rest
  | some buf, [] => '<' :: buf.reverse
  | some buf, c :: rest =>
    if c == '>' then
      if buf.isEmpty then '<' :: '>' :: tagGo none rest
      else tagGo none rest
    else tagGo (some (c :: buf)) rest

/-- `_clean_plot`: the ordered literal replacements, then removal of the
remaining `<...>` tags. -/
def _clean_plot (plot : String) : String :=
  let p := CLEAN_PLOT_REPLACEMENTS.foldl (fun acc r => pyReplace acc r.1 r.2) plot
  ⟨tagGo none p.data⟩

/-! ### The data model: API records and the host list item -/

/-- An API record (show / episode / season dictionary): an
insertion-ordered association list of string keys and string values, as
delivered by the TheSportsDB JSON API. -/
abbrev Record := List (String × String)

/-- Python `d.get(k)`: the value of the first binding of `k`, if any. -/
def dgetOpt (r : Record) (k : String) : Option String :=
  (r.find? (fun p => p.1 == k)).map (fun p => p.2)

/-- Python `d.get(k, dflt)`. -/
def dget (r : Record) (k dflt : String) : String :=
  (dgetOpt r k).getD dflt

/-- A value of the (possibly seasons-annotated) show record:
`show_info['seasons'] = _add_season_info(...)` stores an optional list of
`(season_num, season_name)` entries next to the original string fields. -/
inductive AVal where
  | str (v : String)
  | seasons (l : Option (List (Int × String)))
deriving DecidableEq, Repr

/-- A show record after `add_main_show_info` may have touched it. -/
abbrev AnnRecord := List (String × AVal)

/-- The identity injection of an API record into annotated records. -/
def annRec (r : Record) : AnnRecord :=
  r.map (fun p => (p.1, AVal.str p.2))

/-- Python dict assignment `d[k] = v`: replaces the value in place when the
key is bound, else appends the new binding. -/
def setKey : AnnRecord → String → AVal → AnnRecord
  | [], k, v => [(k, v)]
  | (k', v') :: rest, k, v =>
    if k' == k then (k, v) :: rest else (k', v') :: setKey rest k v

/-- The host's video info tag, modelled as the record of all setter calls
made so far.  `Option` fields hold the argument of the last call of the
corresponding setter (`none` = never called); `title` and its variants can
themselves receive Python `None` (an absent `strLeague`), hence the nested
`Option`.  `uniqueIDs` entries are `(value, type, isDefault)`; `artworks`
entries are `(url, art_type, preview)`; `seasonsAdded` entries are
`(number, name)` from `addSeason`. -/
structure VTag where
  title : Option (Option String) := none
  originalTitle : Option (Option String) := none
  tvShowTitle : Option (Option String) := none
  plot : Option String := none
  plotOutline : Option String := none
  mediaType : Option String := none
  episodeGuide : Option String := none
  year : Option Int := none
  premiered : Option String := none
  firstAired : Option String := none
  season : Option Int := none
  episode : Option Int := none
  genres : Option (List String) := none
  studios : Option (List String) := none
  countries : Option (List String) := none
  uniqueIDs : List (String × String × Bool) := []
  artworks : List (String × String × String) := []
  seasonsAdded : List (Int × String) := []
deriving DecidableEq, Repr

/-- The host list item: its video info tag plus the argument of the last
`setAvailableFanart` call, if any. -/
structure ListItem where
  vtag : VTag := {}
  availableFanart : Option (List String) := none
deriving DecidableEq, Repr

/-- `UrlParseResult` from the source. -/
structure UrlParseResult where
  provider : String
  show_id : String
deriving DecidableEq, Repr

/-- The result dictionary of `parse_media_id`. -/
structure MediaIdQuery where
  type : String
  title : String
deriving DecidableEq, Repr

/-- A season-listing fetch response, as consumed by `_add_season_info`
(which reads only the key `"seasons"`): `seasons = none` models a response
dictionary in which `"seasons"` is absent or bound to `None` (for example
the empty dictionary), `seasons = some l` a response binding it to a list
of season records. -/
structure FetchResp where
  seasons : Option (List Record)
deriving DecidableEq, Repr

/-- Side effects on the out-of-scope collaborators: the season-listing
network fetch (`api_utils.load_info(settings.SEASON_URL, ...)`, keyed by
the league id parameter) and the cache write (`cache.cache_show_info`). -/
inductive Effect where
  | fetchSeasons (leagueId : String)
  | cacheWrite (info : AnnRecord)
deriving DecidableEq, Repr

/-! ### The unique-ID mapper (`_set_unique_ids`) -/

/-- `VALIDEXTIDS` from the source. -/
def VALIDEXTIDS : List String := ["tmdb_id", "imdb_id", "tvdb_id"]

/-- `_set_unique_ids`: for every binding whose key is in the allow-list and
whose value is truthy, registers `(str(value), key[:4], key == 'tmdb_id')`.
(`str` of a string value is the value itself.) -/
def _set_unique_ids (ext_ids : Record) (vtag : VTag) : VTag :=
  ext_ids.foldl
    (fun vt p =>
      if VALIDEXTIDS.contains p.1 && p.2 != "" then
        { vt with uniqueIDs := vt.uniqueIDs ++ [(p.2, pyTake p.1 4, p.1 == "tmdb_id")] }
      else vt)
    vtag

/-! ### The season augmenter (`_add_season_info`) -/

/-- The body of the `for season in resp.get('seasons')` loop: for each
season record with a truthy `strSeason`, parses `int(season_name[:4])`
(raising `ValueError` on failure), registers `(number, name)` via
`addSeason`, and accumulates the `(season_num, season_name)` entries. -/
def addSeasonsGo : List Record → List (Int × String) → VTag →
    Except PyErr (List (Int × String) × VTag)
  | [], acc, vtag => .ok (acc, vtag)
  | season :: rest, acc, vtag =>
    match dgetOpt season "strSeason" with
    | some name =>
      if name ≠ "" then
        match pyInt (pyTake name 4) with
        | some n =>
          addSeasonsGo rest (acc ++ [(n, name)])
            { vtag with seasonsAdded := vtag.seasonsAdded ++ [(n, name)] }
        | none => .error PyErr.valueError
      else addSeasonsGo rest acc vtag
    | none => addSeasonsGo rest acc vtag

/-- `_add_season_info`, with the collaborator's response passed in
explicitly (`none` models the fetch returning `None`).  A non-`None`
response without a `"seasons"` sequence makes `for season in
resp.get('seasons')` iterate over `None`, a `TypeError`. -/
def _add_season_info (resp : Option FetchResp) (vtag : VTag) :
    Except PyErr (Option (List (Int × String)) × VTag) :=
  match resp with
  | none => .ok (none, vtag)
  | some r =>
    match r.seasons with
    | none => .error PyErr.typeError
    | some lst =>
      match addSeasonsGo lst [] vtag with
      | .error e => .error e
      | .ok (seasons, vtag') => .ok (some seasons, vtag')

/-! ### The artwork mapper (`set_show_artwork`) -/

/-- The contribution of one optional image field: the normalized URL when
the field is present and truthy, nothing otherwise. -/
def truthyUrl : Option String → List String
  | some s => if s ≠ "" then [pyReplace s "\\/" "/"] else []
  | none => []

/-- The `for image_type, image in images` loop of `set_show_artwork`:
fanart entries are collected into the list, poster/banner entries are
registered as available artwork with a derived preview URL. -/
def artLoop : List (String × Option String) → List String → VTag →
    List String × VTag
  | [], fl, vt => (fl, vt)
  | (ty, img) :: rest, fl, vt =>
    if ty == "fanart" then
      match img with
      | some i =>
        if i ≠ "" then artLoop rest (fl ++ [pyReplace i "\\/" "/"]) vt
        else artLoop rest fl vt
      | none => artLoop rest fl vt
    else
      match img with
      | some i =>
        if i ≠ "" then
          let theurl := pyReplace i "\\/" "/"
          artLoop rest fl
            { vt with artworks := vt.artworks ++ [(theurl, ty, theurl ++ "/preview")] }
        else artLoop rest fl vt
      | none => artLoop rest fl vt

/-- The fanart URLs collected by `artLoop`, in collection order. -/
def fanartOf : List (String × Option String) → List String
  | [] => []
  | (ty, img) :: rest =>
    (if ty == "fanart" then truthyUrl img else []) ++ fanartOf rest

/-- The artwork registrations appended by `artLoop`, in call order. -/
def artOf : List (String × Option String) → List (String × String × String)
  | [] => []
  | (ty, img) :: rest =>
    (if ty == "fanart" then []
     else (truthyUrl img).map (fun u => (u, ty, u ++ "/preview"))) ++ artOf rest

/-- `set_show_artwork`: collects `strFanart1`, `strFanart2`, `strFanart3`,
`strFanart1` (the first field listed twice, as in the source), `strPoster`
and `strBanner`, and registers the nonempty fanart list. -/
def set_show_artwork (show_info : Record) (list_item : ListItem) : ListItem :=
  let images : List (String × Option String) :=
    [("fanart", dgetOpt show_info "strFanart1"),
     ("fanart", dgetOpt show_info "strFanart2"),
     ("fanart", dgetOpt show_info "strFanart3"),
     ("fanart", dgetOpt show_info "strFanart1"),
     ("poster", dgetOpt show_info "strPoster"),
     ("banner", dgetOpt show_info "strBanner")]
  let r := artLoop images [] list_item.vtag
  let li := { list_item with vtag := r.2 }
  if r.1.isEmpty then li else { li with availableFanart := some r.1 }

/-! ### The show mapper (`add_main_show_info`) -/

/-- The tail of the `full_info` branch of `add_main_show_info` (factored
out for the proofs): runs the season augmenter on the list item's tag,
stores the result back onto the show record under the key `seasons`, and
forwards the annotated record to the cache collaborator. -/
def mainFullTail (li2 : ListItem) (show_ann : AnnRecord) (leagueParam : String)
    (fetchResp : Option FetchResp) : Except PyErr (ListItem × AnnRecord × List Effect) :=
  match _add_season_info fetchResp li2.vtag with
  | .error e => .error e
  | .ok (seasons, vtag2) =>
    let annotated := setKey show_ann "seasons" (AVal.seasons seasons)
    .ok ({ li2 with vtag := vtag2 }, annotated,
      [Effect.fetchSeasons leagueParam, Effect.cacheWrite annotated])

/-- `add_main_show_info`.  The season-listing fetch response is passed in
as `fetchResp` (the network collaborator is out of scope); the returned
triple is the mutated list item, the show record as left by the call
(annotated with a `seasons` key in the `full_info` branch), and the side
effects emitted on the network/cache collaborators.  `show_info['idLeague']`
raises `KeyError` when absent; `int(show_info.get('intFormedYear', '')[:4])`
raises `ValueError` when the (defaulted) prefix does not parse. -/
def add_main_show_info (list_item : ListItem) (show_info : Record)
    (full_info : Bool) (fetchResp : Option FetchResp) :
    Except PyErr (ListItem × AnnRecord × List Effect) :=
  let vtag := list_item.vtag
  let showname := dgetOpt show_info "strLeague"
  let plot := _clean_plot (dget show_info "strDescriptionEN" "")
  let vtag := { vtag with
    title := some showname, originalTitle := some showname,
    tvShowTitle := some showname, plot := some plot, plotOutline := some plot,
    mediaType := some "tvshow" }
  match dgetOpt show_info "idLeague" with
  | none => .error PyErr.keyError
  | some lid =>
    let vtag := { vtag with episodeGuide := some lid }
    match pyInt (pyTake (dget show_info "intFormedYear" "") 4) with
    | none => .error PyErr.valueError
    | some yr =>
      let vtag := { vtag with
        year := some yr, premiered := some (dget show_info "dateFirstEvent" "") }
      if full_info then
        let vtag := { vtag with
          uniqueIDs := vtag.uniqueIDs ++ [(lid, "tsdb", true)],
          genres := some [dget show_info "strSport" ""],
          studios := some [dget show_info "strTvRights" ""],
          countries := some [dget show_info "strCountry" ""] }
        let li := set_show_artwork show_info { list_item with vtag := vtag }
        mainFullTail li (annRec show_info) (dget show_info "idLeague" "0") fetchResp
      else
        let vtag :=
          match dgetOpt show_info "strPoster" with
          | some image =>
            if image ≠ "" then
              let theurl := pyReplace image "\\/" "/"
              { vtag with artworks := vtag.artworks ++ [(theurl, "poster", theurl ++ "/preview")] }
            else vtag
          | none => vtag
        .ok ({ list_item with vtag := vtag }, annRec show_info, [])

/-! ### The episode mapper (`add_episode_info`) -/

/-- `add_episode_info`.  `int(season)` / `int(episode)` raise `ValueError`
when the (defaulted) strings do not parse; every other field is optional.
The title is computed up front (possibly air-date-prefixed when not
`full_info`), set once, and set again identically under `full_info`. -/
def add_episode_info (list_item : ListItem) (episode_info : Record)
    (full_info : Bool) : Except PyErr ListItem :=
  let season := pyTake (dget episode_info "strSeason" "0000") 4
  let episode := dget episode_info "strEpisode" "0"
  let title0 := dget episode_info "strEvent" ("Episode " ++ episode)
  match pyInt season with
  | none => .error PyErr.valueError
  | some sn =>
    match pyInt episode with
    | none => .error PyErr.valueError
    | some en =>
      let vtag := { list_item.vtag with
        season := some sn, episode := some en, mediaType := some "episode" }
      let air_date := dgetOpt episode_info "dateEvent"
      let step :=
        match air_date with
        | some d =>
          if d ≠ "" then
            ({ vtag with firstAired := some d },
             if !full_info then
               dget episode_info "strLeague" "" ++ "." ++ pyReplace d "-" "" ++ "." ++ title0
             else title0)
          else (vtag, title0)
        | none => (vtag, title0)
      let vtag := { step.1 with title := some (some step.2) }
      if full_info then
        let vtag := { vtag with title := some (some step.2) }
        let vtag :=
          match dgetOpt episode_info "strDescriptionEN" with
          | some rp =>
            if rp ≠ "" then
              let plot := _clean_plot (dget episode_info "strDescriptionEN" "")
              { vtag with plot := some plot, plotOutline := some plot }
            else vtag
          | none => vtag
        let vtag :=
          match air_date with
          | some d => if d ≠ "" then { vtag with premiered := some d } else vtag
          | none => vtag
        let rawurl := dget episode_info "strThumb" ""
        let vtag :=
          if rawurl ≠ "" then
            let theurl := pyReplace rawurl "\\/" "/"
            { vtag with artworks := vtag.artworks ++ [(theurl, "thumb", theurl ++ "/preview")] }
          else vtag
        .ok { list_item with vtag := vtag }
      else
        .ok { list_item with vtag := vtag }

/-! ### The NFO URL parser (`parse_nfo_url`) -/

/-- `SHOW_ID_REGEXPS` exactly as in the source: the parenthesised regular
expression is NOT followed by a comma, so the assignment binds a plain
string, not a 1-tuple of strings. -/
def SHOW_ID_REGEXPS : String := "(thesportsdb)\\.com/league/(\\d+)"

/-- Model of `re.search(pat, text, re.I)` for a ONE-character pattern
`pat`, which is what each loop iteration of `parse_nfo_url` performs when
iterating over the characters of the string `SHOW_ID_REGEXPS`.  The
metacharacters `(`, `)`, `[`, `*`, `+`, `?` and a lone backslash are
invalid one-character patterns: `re.compile` raises `re.error`.  `.`
matches any character, `^` and `$` match at a position of every string,
and any other character matches itself case-insensitively.  Returns
whether a match exists. -/
def reSearchChar (pat : Char) (text : String) : Except PyErr Bool :=
  if pat == '(' || pat == ')' || pat == '[' || pat == '*' || pat == '+'
      || pat == '?' || pat == '\\' then
    .error PyErr.reError
  else if pat == '.' then .ok (!text.data.isEmpty)
  else if pat == '^' || pat == '$' then .ok true
  else .ok (text.data.any (fun c => charLower c == charLower pat))

/-- The `for regexp in SHOW_ID_REGEXPS` loop body: search with the
one-character pattern; on a match, the code reads `show_id_match.group(1)`,
which raises `IndexError` for a pattern with no capturing groups. -/
def parseNfoGo (nfo : String) : List Char → Except PyErr (Option UrlParseResult)
  | [] => .ok none
  | c :: rest =>
    match reSearchChar c nfo with
    | .error e => .error e
    | .ok true => .error PyErr.indexError
    | .ok false => parseNfoGo nfo rest

/-- `parse_nfo_url`, iterating over `SHOW_ID_REGEXPS` — that is, over the
characters of the regular-expression string. -/
def parse_nfo_url (nfo : String) : Except PyErr (Option UrlParseResult) :=
  parseNfoGo nfo SHOW_ID_REGEXPS.data

/-! ### The media-ID parser (`parse_media_id`) -/

/-- `parse_media_id`: lower-cases the input and classifies it by prefix
and digit suffix, in the source's branch order. -/
def parse_media_id (title : String) : Option MediaIdQuery :=
  let t := pyLower title
  if pyStartsWith t "tt" && pyIsdigit (pyDrop t 2) then
    some ⟨"imdb_id", t⟩
  else if pyStartsWith t "imdb/tt" && pyIsdigit (pyDrop t 7) then
    some ⟨"imdb_id", pyDrop t 5⟩
  else if pyStartsWith t "tmdb/" && pyIsdigit (pyDrop t 5) then
    some ⟨"tmdb_id", pyDrop t 5⟩
  else if pyStartsWith t "tvdb/" && pyIsdigit (pyDrop t 5) then
    some ⟨"tvdb_id", pyDrop t 5⟩
  else none

/-! ## Helper lemmas -/

/-- `artLoop` appends the collected fanart URLs to the accumulator and the
poster/banner registrations to the tag's artwork list, leaving every other
tag field unchanged. -/
theorem artLoop_eq (l : List (String × Option String)) (fl : List String) (vt : VTag) :
    artLoop l fl vt = (fl ++ fanartOf l, { vt with artworks := vt.artworks ++ artOf l }) := by
  induction l generalizing fl vt with
  | nil => simp [artLoop, fanartOf, artOf]
  | cons p rest ih =>
    obtain ⟨ty, img⟩ := p
    cases img with
    | none =>
      by_cases hty : (ty == "fanart") = true <;>
        simp [artLoop, fanartOf, artOf, truthyUrl, hty, ih]
    | some i =>
      by_cases hty : (ty == "fanart") = true <;>
        by_cases hi : i = "" <;>
          simp [artLoop, fanartOf, artOf, truthyUrl, hty, hi, ih, List.append_assoc]

/-- Whenever the full-branch tail succeeds, the record it hands back (and
to the cache) is the input record with exactly a `seasons` key set, and
the emitted effects are exactly the fetch and the cache write. -/
theorem mainFullTail_frame (li2 : ListItem) (ann : AnnRecord) (lp : String)
    (fr : Option FetchResp) :
    match mainFullTail li2 ann lp fr with
    | .ok out => ∃ s, out.2.1 = setKey ann "seasons" (AVal.seasons s)
        ∧ out.2.2 = [Effect.fetchSeasons lp,
            Effect.cacheWrite (setKey ann "seasons" (AVal.seasons s))]
    | .error _ => True := by
  unfold mainFullTail
  cases h : _add_season_info fr li2.vtag with
  | error e => simp
  | ok pr =>
    obtain ⟨s, v2⟩ := pr
    exact ⟨s, rfl, rfl⟩

/-- Full characterization of `set_show_artwork` in terms of the collected
fanart list and artwork registrations of its six image fields. -/
theorem set_show_artwork_eq (r : Record) (li : ListItem) :
    set_show_artwork r li =
      (let images : List (String × Option String) :=
        [("fanart", dgetOpt r "strFanart1"), ("fanart", dgetOpt r "strFanart2"),
         ("fanart", dgetOpt r "strFanart3"), ("fanart", dgetOpt r "strFanart1"),
         ("poster", dgetOpt r "strPoster"), ("banner", dgetOpt r "strBanner")]
      let vt := { li.vtag with artworks := li.vtag.artworks ++ artOf images }
      if (fanartOf images).isEmpty then { li with vtag := vt }
      else { li with vtag := vt, availableFanart := some (fanartOf images) }) := by
  simp only [set_show_artwork, artLoop_eq, List.nil_append]

/-! ## Claim theorems -/

/-- Claim C1: the claim says `parse_nfo_url` returns
`UrlParseResult("thesportsdb", digits)` on text containing
`thesportsdb.com/league/<digits>` and `None` on non-matching text, with no
exception in either case.  In the code, `SHOW_ID_REGEXPS` is a
parenthesised string WITHOUT a trailing comma — a plain string, not a
tuple — so `for regexp in SHOW_ID_REGEXPS` iterates over its characters,
and the very first character `'('` is an invalid regular expression:
`re.search` raises `re.error` before anything can match.  This theorem
evaluates the embedded code at both of the claim's example inputs and
shows the raised error. -/
theorem parse_nfo_url_always_raises :
    parse_nfo_url "...thesportsdb.com/league/4328" = .error PyErr.reError
    ∧ parse_nfo_url "no match here" = .error PyErr.reError :=
  ⟨rfl, rfl⟩

/-- Claim C2 counterexample: the claim says an empty OR null collaborator
result is a recoverable no-op, but on a non-null empty response (the empty
dictionary, which has no `seasons` key, so `resp.get('seasons')` is `None`)
the loop `for season in resp.get('seasons')` raises a `TypeError`. -/
theorem add_season_info_empty_resp_raises :
    _add_season_info (some ⟨none⟩) {} = .error PyErr.typeError :=
  rfl

/-- Claim C2 (amended): when the season fetch collaborator returns a null
result (`None`), `_add_season_info` returns nothing (no season list),
registers no seasons on the destination, and raises no error.  (A non-null
but empty response instead raises, see the counterexample.) -/
theorem add_season_info_null_noop (vtag : VTag) :
    _add_season_info none vtag = .ok (none, vtag) :=
  rfl

/-- Claim C6: `set_show_artwork` normalizes `\/` to `/` in collected URLs,
registers poster and banner individually with preview URL `url/preview`,
skips absent fields silently (`truthyUrl` of an absent field is empty),
and collects fanart in the order `strFanart1, strFanart2, strFanart3,
strFanart1` into a single list registered without deduplication; a show
with only `strFanart1` yields that URL exactly twice, and identical URLs
in distinct fields each yield their own entry. -/
theorem set_show_artwork_spec (r : Record) (li : ListItem) :
    ((set_show_artwork r li).vtag.artworks = li.vtag.artworks
      ++ (truthyUrl (dgetOpt r "strPoster")).map (fun u => (u, "poster", u ++ "/preview"))
      ++ (truthyUrl (dgetOpt r "strBanner")).map (fun u => (u, "banner", u ++ "/preview")))
    ∧ ((set_show_artwork r li).availableFanart =
        (let fan := truthyUrl (dgetOpt r "strFanart1") ++ truthyUrl (dgetOpt r "strFanart2")
          ++ truthyUrl (dgetOpt r "strFanart3") ++ truthyUrl (dgetOpt r "strFanart1")
        if fan.isEmpty then li.availableFanart else some fan))
    ∧ (set_show_artwork [("strFanart1", "a.jpg")] {}).availableFanart
        = some ["a.jpg", "a.jpg"]
    ∧ (set_show_artwork [("strFanart1", "u.jpg"), ("strFanart2", "u.jpg")] {}).availableFanart
        = some ["u.jpg", "u.jpg", "u.jpg"] := by
  refine ⟨?_, ?_, by decide, by decide⟩
  · simp only [set_show_artwork_eq]
    split_ifs <;> simp [artOf, List.append_assoc]
  · simp only [set_show_artwork_eq]
    split_ifs <;> simp_all [fanartOf, List.append_assoc]

/-- Claim C8: `_clean_plot` applies, in order, the replacements
`<b>`/`</b>`/`<i>`/`</i>` to Kodi tags and `</p><p>` to `[CR]`, then
removes every remaining `<...>` tag-like substring; evaluated at the two
example inputs of the claim. -/
theorem clean_plot_examples :
    _clean_plot "<b>Hi</b></p><p>Bye<i>!</i>" = "[B]Hi[/B][CR]Bye[I]![/I]"
    ∧ _clean_plot "foo<div>bar</div>" = "foobar" := by
  exact ⟨by decide, by decide⟩

/-- Claim C9: `_set_unique_ids` registers exactly the bindings whose key
is in the allow-list `VALIDEXTIDS` and whose value is truthy, using the
(string form of the) value, the first 4 characters of the key as the type
tag, and default flag true exactly for `tmdb_id`; in particular the
record with `tmdb_id = "42"`, `imdb_id = ""` and `tvdb_id = "7"` registers
exactly two IDs and skips `imdb_id`. -/
theorem set_unique_ids_spec (ext_ids : Record) (vtag : VTag) :
    ((_set_unique_ids ext_ids vtag).uniqueIDs = vtag.uniqueIDs
      ++ (ext_ids.filter (fun p => VALIDEXTIDS.contains p.1 && p.2 != "")).map
        (fun p => (p.2, pyTake p.1 4, p.1 == "tmdb_id")))
    ∧ (_set_unique_ids [("tmdb_id", "42"), ("imdb_id", ""), ("tvdb_id", "7")] {}).uniqueIDs
        = [("42", "tmdb", true), ("7", "tvdb", false)] := by
  refine ⟨?_, by decide⟩
  induction ext_ids generalizing vtag with
  | nil => simp [_set_unique_ids]
  | cons p rest ih =>
    by_cases h : p.1 ∈ VALIDEXTIDS ∧ ¬p.2 = "" <;>
      simp [_set_unique_ids, List.filter_cons, h, List.append_assoc] at ih ⊢ <;>
        simp [ih, List.append_assoc]

/-- Claim C3 counterexample: the claim restricts the digit-suffix test to
ASCII digits and asserts that a non-ASCII Unicode digit in the suffix
yields no match, so it predicts `parse_media_id "tt٣" = none` (no prefix
branch applies under an ASCII-only test).  Python's `str.isdigit` accepts
the Arabic-Indic digit `٣` (U+0663), so the code matches the first branch
instead. -/
theorem parse_media_id_unicode_digit :
    parse_media_id "tt٣" = some ⟨"imdb_id", "tt٣"⟩ := by
  decide

/-- Claim C3 (amended): `parse_media_id` lower-cases its input and
classifies by prefix in priority order `tt<digits>`, `imdb/tt<digits>`,
`tmdb/<digits>`, `tvdb/<digits>`, yielding the claimed results and `none`
when no branch matches — where the digit-suffix test is Python's
`str.isdigit`, which accepts every Unicode digit character (decimal digits
of any script plus superscript and subscript digits), not only the ASCII
digits. -/
theorem parse_media_id_classification (s t : String) (ht : t = pyLower s) :
    ((pyStartsWith t "tt" && pyIsdigit (pyDrop t 2)) = true →
      parse_media_id s = some ⟨"imdb_id", t⟩)
    ∧ ((pyStartsWith t "tt" && pyIsdigit (pyDrop t 2)) = false →
       (pyStartsWith t "imdb/tt" && pyIsdigit (pyDrop t 7)) = true →
      parse_media_id s = some ⟨"imdb_id", pyDrop t 5⟩)
    ∧ ((pyStartsWith t "tt" && pyIsdigit (pyDrop t 2)) = false →
       (pyStartsWith t "imdb/tt" && pyIsdigit (pyDrop t 7)) = false →
       (pyStartsWith t "tmdb/" && pyIsdigit (pyDrop t 5)) = true →
      parse_media_id s = some ⟨"tmdb_id", pyDrop t 5⟩)
    ∧ ((pyStartsWith t "tt" && pyIsdigit (pyDrop t 2)) = false →
       (pyStartsWith t "imdb/tt" && pyIsdigit (pyDrop t 7)) = false →
       (pyStartsWith t "tmdb/" && pyIsdigit (pyDrop t 5)) = false →
       (pyStartsWith t "tvdb/" && pyIsdigit (pyDrop t 5)) = true →
      parse_media_id s = some ⟨"tvdb_id", pyDrop t 5⟩)
    ∧ ((pyStartsWith t "tt" && pyIsdigit (pyDrop t 2)) = false →
       (pyStartsWith t "imdb/tt" && pyIsdigit (pyDrop t 7)) = false →
       (pyStartsWith t "tmdb/" && pyIsdigit (pyDrop t 5)) = false →
       (pyStartsWith t "tvdb/" && pyIsdigit (pyDrop t 5)) = false →
      parse_media_id s = none) := by
  subst ht
  refine ⟨?_, ?_, ?_, ?_, ?_⟩ <;> intros <;> simp only [parse_media_id, *] <;> rfl

/-- Witness for C3's amended theorem, at the spec's own example input. -/
theorem parse_media_id_classification_witness :
    parse_media_id "imdb/tt1234567" = some ⟨"imdb_id", "tt1234567"⟩ := by
  have h := (parse_media_id_classification "imdb/tt1234567" (pyLower "imdb/tt1234567")
    rfl).2.1 (by decide) (by decide)
  rw [h]; decide

/-- Claim C4 counterexample: the claim says no input record — including
one with a present but non-numeric `strSeason` or `strEpisode` — causes a
failure, but a record with `strSeason = "abcd"` makes `int(season)` raise
a `ValueError`. -/
theorem add_episode_info_nonnumeric_raises :
    add_episode_info {} [("strSeason", "abcd")] true = .error PyErr.valueError :=
  rfl

/-- Claim C4 (amended): `add_episode_info` raises no error and returns the
mutated destination item for either value of `full_info` provided the
defaulted season prefix (`strSeason[:4]`, default `"0000"`) and episode
string (`strEpisode`, default `"0"`) parse as integers; absent fields are
then safe through their defaults, but a present non-numeric value raises
(see the counterexample). -/
theorem add_episode_info_total_when_numeric (li : ListItem) (ep : Record) (fi : Bool)
    (sn en : Int)
    (hs : pyInt (pyTake (dget ep "strSeason" "0000") 4) = some sn)
    (he : pyInt (dget ep "strEpisode" "0") = some en) :
    (add_episode_info li ep fi).map
      (fun li' => (li'.vtag.season, li'.vtag.episode, li'.vtag.mediaType))
      = .ok (some sn, some en, some "episode") := by
  cases fi <;> cases hd : dgetOpt ep "dateEvent" <;>
    cases hp : dgetOpt ep "strDescriptionEN" <;>
      simp [add_episode_info, Except.map, hs, he, hd, hp] <;>
        (try split_ifs) <;> simp [Except.map]

/-- Witness for C4's amended theorem: the empty record, where both
defaults apply. -/
theorem add_episode_info_total_witness :
    (add_episode_info {} [] true).map
      (fun li' => (li'.vtag.season, li'.vtag.episode, li'.vtag.mediaType))
      = .ok (some 0, some 0, some "episode") :=
  add_episode_info_total_when_numeric {} [] true 0 0 rfl rfl

/-- Claim C5: with `idLeague` present (the code dereferences
`show_info['idLeague']` before the year) and a null season-fetch response,
`add_main_show_info` sets the destination's year to
`int(intFormedYear[:4])` — an absent field defaulting to `""` before
slicing — and propagates an unhandled parse failure exactly when that
(defaulted, sliced) string does not parse as an integer. -/
theorem add_main_show_info_year (li : ListItem) (r : Record) (fi : Bool) (lid : String)
    (hlid : dgetOpt r "idLeague" = some lid) :
    (pyInt (pyTake (dget r "intFormedYear" "") 4) = none →
      add_main_show_info li r fi none = .error PyErr.valueError)
    ∧ (∀ y : Int, pyInt (pyTake (dget r "intFormedYear" "") 4) = some y →
      (add_main_show_info li r fi none).map (fun out => out.1.vtag.year) = .ok (some y)) := by
  constructor
  · intro h
    cases fi <;> simp [add_main_show_info, hlid, h]
  · intro y hy
    cases fi with
    | false =>
      cases hp : dgetOpt r "strPoster" <;>
        simp [add_main_show_info, Except.map, hlid, hy, hp] <;>
          (try split_ifs) <;> simp [Except.map]
    | true =>
      simp [add_main_show_info, mainFullTail, Except.map, hlid, hy, _add_season_info,
        set_show_artwork_eq]
      (try split_ifs) <;> simp [mainFullTail, _add_season_info, Except.map]

/-- Witness for C5's theorem: `intFormedYear = "1992"` yields year 1992. -/
theorem add_main_show_info_year_witness :
    (add_main_show_info {} [("idLeague", "1"), ("intFormedYear", "1992")] true none).map
      (fun out => out.1.vtag.year) = .ok (some 1992) :=
  (add_main_show_info_year {} [("idLeague", "1"), ("intFormedYear", "1992")] true "1"
    rfl).2 1992 rfl

/-- Claim C7: `add_main_show_info` with `full_info = false` leaves the
show record unchanged and emits no network fetch and no cache write; with
`full_info = true` the record gains exactly a `seasons` key and the fetch
and cache-write effects are emitted.  (The other mapping functions of the
module never write to their input records: their embeddings take records
as read-only inputs and return none.) -/
theorem add_main_show_info_frame (li : ListItem) (r : Record) (fr : Option FetchResp) :
    (match add_main_show_info li r false fr with
      | .ok out => out.2.1 = annRec r ∧ out.2.2 = []
      | .error _ => True)
    ∧ (match add_main_show_info li r true fr with
      | .ok out => ∃ s, out.2.1 = setKey (annRec r) "seasons" (AVal.seasons s)
          ∧ out.2.2 = [Effect.fetchSeasons (dget r "idLeague" "0"),
              Effect.cacheWrite (setKey (annRec r) "seasons" (AVal.seasons s))]
      | .error _ => True) := by
  constructor
  · cases hlid : dgetOpt r "idLeague" with
    | none => simp [add_main_show_info, hlid]
    | some lid =>
      cases hy : pyInt (pyTake (dget r "intFormedYear" "") 4) with
      | none => simp [add_main_show_info, hlid, hy]
      | some y => simp [add_main_show_info, hlid, hy]
  · cases hlid : dgetOpt r "idLeague" with
    | none => simp [add_main_show_info, hlid]
    | some lid =>
      cases hy : pyInt (pyTake (dget r "intFormedYear" "") 4) with
      | none => simp [add_main_show_info, hlid, hy]
      | some y =>
        simp only [add_main_show_info, hlid, hy]
        exact mainFullTail_frame _ _ _ _

/-- Claim C10: when the episode record has a (truthy) `dateEvent`, it is
set as first-aired, and the registered title is
`strLeague.dateEventWithoutDashes.baseTitle` exactly when `full_info` is
false, the plain base title (`strEvent`, defaulting to
`"Episode <strEpisode>"`) when `full_info` is true. -/
theorem add_episode_info_title (li : ListItem) (ep : Record) (fi : Bool)
    (d : String) (sn en : Int)
    (hd : dgetOpt ep "dateEvent" = some d) (hne : ¬d = "")
    (hs : pyInt (pyTake (dget ep "strSeason" "0000") 4) = some sn)
    (he : pyInt (dget ep "strEpisode" "0") = some en) :
    (add_episode_info li ep fi).map (fun li' => (li'.vtag.firstAired, li'.vtag.title))
      = .ok (some d, some (some (
          if fi then dget ep "strEvent" ("Episode " ++ dget ep "strEpisode" "0")
          else dget ep "strLeague" "" ++ "." ++ pyReplace d "-" "" ++ "."
            ++ dget ep "strEvent" ("Episode " ++ dget ep "strEpisode" "0")))) := by
  cases fi <;> cases hp : dgetOpt ep "strDescriptionEN" <;>
    simp [add_episode_info, Except.map, hs, he, hd, hne, hp] <;>
      (try split_ifs) <;> simp [Except.map]

/-- Witness for C10's theorem, in the non-`full_info` branch. -/
theorem add_episode_info_title_witness :
    (add_episode_info {}
        [("dateEvent", "2020-01-02"), ("strLeague", "NBA"), ("strEvent", "Final")] false).map
      (fun li' => (li'.vtag.firstAired, li'.vtag.title))
      = .ok (some "2020-01-02", some (some "NBA.20200102.Final")) := by
  have h := add_episode_info_title {}
    [("dateEvent", "2020-01-02"), ("strLeague", "NBA"), ("strEvent", "Final")] false
    "2020-01-02" 0 0 rfl (by decide) rfl rfl
  exact h.trans rfl

end DataUtils

